import Mathlib

/-!
Verification development for the FreeRTOS emulator graphics library
(gfx_draw.c, gfx_font.c).  The C code is shallowly embedded: C unsigned
32-bit arithmetic is modelled on Nat with explicit reduction modulo 2^32
where wrap-around is reachable, C signed 16-bit function parameters are
modelled on Int with an explicit truncation at the conversion boundary,
allocation outcomes (calloc/strdup/TTF_OpenFont) are passed in as Boolean
oracles, and the SDL / SDL2_gfx primitives are the abstract backend: each
static wrapper (_clearDisplay, _drawFilledRectangle, ...) is a backend
call recorded in a trace.  Mutexes always succeed in the sequential model
and are dropped; the embedded operations act on explicit state values.
-/

/-- 2^32, the modulus of C `unsigned int` arithmetic. -/
def U32 : Nat := 4294967296

/-- C unsigned addition `a + b` on 32-bit unsigned operands. -/
def uadd (a b : Nat) : Nat := (a + b) % U32

/-- C unsigned subtraction `a - b` on 32-bit unsigned operands. -/
def usub (a b : Nat) : Nat := (a % U32 + U32 - b % U32) % U32

/-- C unsigned decrement `r--` on a 32-bit unsigned counter. -/
def u32dec (r : Nat) : Nat := (r + (U32 - 1)) % U32

/-- Conversion of a C `int` expression to a `signed short` parameter:
truncation to the 16-bit two's-complement range. -/
def toS (z : Int) : Int := (z + 32768) % 65536 - 32768

/-- Reading an `int` value (e.g. `signed current_frame`) through the C
int/unsigned conversions as an unsigned 32-bit value. -/
def intToU32 (z : Int) : Nat := (z % (U32 : Int)).toNat

/-- `coord_t`: a pixel coordinate pair of signed shorts (gfx_draw.h). -/
structure Coord where
  x : Int
  y : Int
  deriving Repr, DecidableEq

/-- The contents of a `draw_job_t`: the `draw_job_type_t` discriminant
together with the corresponding member of `union data_u`.  The
`noneJob` constructor is `DRAW_NONE` (the zero value of the enum).
`Option` fields model payload pointers that `calloc` left NULL when a
secondary allocation failed before the field was filled in
(`text_data_t.str`, `poly_data_t.points`, `triangle_data_t.points`);
the font member of `text_data_t` is the backend font handle captured at
enqueue time (NULL while the payload is only partially built). -/
inductive JobData where
  | noneJob
  | clear (colour : Nat)
  | arc (x y radius start stop : Int) (colour : Nat)
  | ellipse (x y rx ry : Int) (colour : Nat)
  | text (str : Option String) (x y : Int) (colour : Nat) (font : Option Nat)
  | rect (x y w h : Int) (colour : Nat)
  | filledRect (x y w h : Int) (colour : Nat)
  | circle (x y radius : Int) (colour : Nat)
  | line (x1 y1 x2 y2 : Int) (thickness : Nat) (colour : Nat)
  | poly (points : Option (List Coord)) (n : Nat) (colour : Nat)
  | triangle (points : Option (List Coord)) (colour : Nat)
  | image (filename : String) (x y : Int)
  | loadedImage (img : Nat) (x y : Int)
  | loadedImageCrop (img : Nat) (x y c_x c_y c_w c_h : Int)
  | scaledImage (filename : String) (x y : Int) (scale : Nat)
  | arrow (x1 y1 x2 y2 head_length : Int) (thickness : Nat) (colour : Nat)
  deriving Repr, DecidableEq

/-- A node of the job list: `draw_job_t`.  `data` is the `union data_u *`
pointer, `none` when the union allocation never happened. -/
structure DrawJob where
  data : Option JobData
  deriving Repr, DecidableEq

/-- One call dispatched to the rendering backend.  Each constructor is
one of the static wrapper primitives of gfx_draw.c applied to fully
converted arguments (`_clearDisplay`, `_drawArc`, `_drawEllipse`,
`_drawText`, `_drawRectangle`, `_drawFilledRectangle`, `_drawCircle`,
`_drawLine`, `_drawPoly`, `_drawTriangle`, image rendering and
`_drawArrow`). -/
inductive BackendCall where
  | clear (colour : Nat)
  | arc (x y radius start stop : Int) (colour : Nat)
  | ellipse (x y rx ry : Int) (colour : Nat)
  | text (str : String) (x y : Int) (colour : Nat) (font : Nat)
  | rect (x y w h : Int) (colour : Nat)
  | filledRect (x y w h : Int) (colour : Nat)
  | circle (x y radius : Int) (colour : Nat)
  | line (x1 y1 x2 y2 : Int) (thickness : Nat) (colour : Nat)
  | poly (points : List Coord) (n : Nat) (colour : Nat)
  | triangle (p0 p1 p2 : Coord) (colour : Nat)
  | image (filename : String) (x y : Int)
  | loadedImage (img : Nat) (x y : Int)
  | loadedImageCrop (img : Nat) (x y c_x c_y c_w c_h : Int)
  | scaledImage (filename : String) (x y : Int) (scale : Nat)
  | arrow (x1 y1 x2 y2 head_length : Int) (thickness : Nat) (colour : Nat)
  deriving Repr, DecidableEq

/-- `vHandleDrawJob`: dispatch of one popped job.  The offsets are the
values of `global_offset` read at dispatch time (the function copies
them into its locals before the switch).  A NULL job payload, a NULL
string/point-array inside a payload, or a malformed triangle is the
error result (`return -1` respectively a crash inside the backend).
The switch adds `x_offset`/`y_offset` exactly where the source does; in
particular the `DRAW_ELLIPSE` case only offsets `x`, and `DRAW_NONE`
and any other unlisted discriminant fall to `default` and succeed with
no backend call.  Every `signed short` argument conversion is `toS`. -/
def vHandleDrawJob (x_offset y_offset : Int) (job : DrawJob) :
    Except Unit (List BackendCall) :=
  match job.data with
  | none => .error ()
  | some d =>
    match d with
    | .noneJob => .ok []
    | .clear colour => .ok [.clear colour]
    | .arc x y radius start stop colour =>
        .ok [.arc (toS (x + x_offset)) (toS (y + y_offset)) radius start stop colour]
    | .ellipse x y rx ry colour =>
        .ok [.ellipse (toS (x + x_offset)) (toS y) rx ry colour]
    | .text str x y colour font =>
        match str, font with
        | some s, some f =>
            .ok [.text s (toS (x + x_offset)) (toS (y + y_offset)) colour f]
        | _, _ => .error ()
    | .rect x y w h colour =>
        .ok [.rect (toS (x + x_offset)) (toS (y + y_offset)) w h colour]
    | .filledRect x y w h colour =>
        .ok [.filledRect (toS (x + x_offset)) (toS (y + y_offset)) w h colour]
    | .circle x y radius colour =>
        .ok [.circle (toS (x + x_offset)) (toS (y + y_offset)) radius colour]
    | .line x1 y1 x2 y2 thickness colour =>
        .ok [.line (toS (x1 + x_offset)) (toS (y1 + y_offset))
              (toS (x2 + x_offset)) (toS (y2 + y_offset)) thickness colour]
    | .poly points n colour =>
        match points with
        | some ps =>
            .ok [.poly (ps.map fun p => ⟨toS (p.x + x_offset), toS (p.y + y_offset)⟩) n colour]
        | none => .error ()
    | .triangle points colour =>
        match points with
        | some [p0, p1, p2] =>
            .ok [.triangle ⟨toS (p0.x + x_offset), toS (p0.y + y_offset)⟩
                  ⟨toS (p1.x + x_offset), toS (p1.y + y_offset)⟩
                  ⟨toS (p2.x + x_offset), toS (p2.y + y_offset)⟩ colour]
        | _ => .error ()
    | .image filename x y =>
        .ok [.image filename (toS (x + x_offset)) (toS (y + y_offset))]
    | .loadedImage img x y =>
        .ok [.loadedImage img (toS (x + x_offset)) (toS (y + y_offset))]
    | .loadedImageCrop img x y c_x c_y c_w c_h =>
        .ok [.loadedImageCrop img (toS (x + x_offset)) (toS (y + y_offset)) c_x c_y c_w c_h]
    | .scaledImage filename x y scale =>
        .ok [.scaledImage filename (toS (x + x_offset)) (toS (y + y_offset)) scale]
    | .arrow x1 y1 x2 y2 head_length thickness colour =>
        .ok [.arrow (toS (x1 + x_offset)) (toS (y1 + y_offset))
              (toS (x2 + x_offset)) (toS (y2 + y_offset)) head_length thickness colour]

/-- The backend calls a successfully dispatched job contributes (empty
on a dispatch error, where the drain loop stops anyway). -/
def jobCalls (x_offset y_offset : Int) (job : DrawJob) : List BackendCall :=
  match vHandleDrawJob x_offset y_offset job with
  | .ok cs => cs
  | .error _ => []

/-- The drain loop of `gfxDrawUpdateScreen`: `popDrawJob` takes the head
of the list behind the sentinel `job_list_head`, `vHandleDrawJob`
dispatches it; on a dispatch error (`goto err` / `goto draw_error`) the
loop returns -1 and the not-yet-popped jobs stay queued.  The result is
(return value, backend call trace, remaining queue).  The FPS limiter
and the GL-thread guard of the source are outside the model (the model
is the render-context owner's successful path). -/
def gfxDrawUpdateScreen (x_offset y_offset : Int) :
    List DrawJob → Int × List BackendCall × List DrawJob
  | [] => (0, [], [])
  | job :: rest =>
    match vHandleDrawJob x_offset y_offset job with
    | .error _ => (-1, [], rest)
    | .ok cs =>
      let r := gfxDrawUpdateScreen x_offset y_offset rest
      (r.1, cs ++ r.2.1, r.2.2)

/-- Result of a public draw-request entry point: `ok` / `err` are the
`0` / `-1` return values; `fatal` is `logCriticalError`, which calls
`exit(-1)` and never returns. -/
inductive CallResult where
  | ok
  | err
  | fatal
  deriving Repr, DecidableEq

/-- `gfxDrawClear`.  `INIT_JOB` first appends a zeroed `draw_job_t` to
the tail of the queue (`_pushDrawJob`), returning -1 with the queue
unchanged if that `calloc` fails; if the `union data_u` `calloc` fails
the process is terminated with the payload-less job still enqueued. -/
def gfxDrawClear (jobAllocOk dataAllocOk : Bool) (colour : Nat)
    (q : List DrawJob) : CallResult × List DrawJob :=
  if !jobAllocOk then (.err, q)
  else if !dataAllocOk then (.fatal, q ++ [⟨none⟩])
  else (.ok, q ++ [⟨some (.clear colour)⟩])

/-- `gfxDrawFilledBox` (enqueues a `DRAW_FILLED_RECT` job). -/
def gfxDrawFilledBox (jobAllocOk dataAllocOk : Bool) (x y w h : Int)
    (colour : Nat) (q : List DrawJob) : CallResult × List DrawJob :=
  if !jobAllocOk then (.err, q)
  else if !dataAllocOk then (.fatal, q ++ [⟨none⟩])
  else (.ok, q ++ [⟨some (.filledRect (toS x) (toS y) (toS w) (toS h) colour)⟩])

/-- `gfxDrawBox` (enqueues a `DRAW_RECT` job). -/
def gfxDrawBox (jobAllocOk dataAllocOk : Bool) (x y w h : Int)
    (colour : Nat) (q : List DrawJob) : CallResult × List DrawJob :=
  if !jobAllocOk then (.err, q)
  else if !dataAllocOk then (.fatal, q ++ [⟨none⟩])
  else (.ok, q ++ [⟨some (.rect (toS x) (toS y) (toS w) (toS h) colour)⟩])

/-- `gfxDrawText`.  After `INIT_JOB` has already enqueued the job, the
string buffer is allocated and copied; if that `calloc` fails the
function returns -1 while the `DRAW_TEXT` job stays enqueued with its
zeroed payload (NULL `str`, NULL `font`, zero coordinates).  On success
the current default font handle (`gfxFontGetCurFont`) is captured into
the payload; `curFont` is that handle (its registry side effect is
modelled with the font registry operations below). -/
def gfxDrawText (jobAllocOk dataAllocOk strAllocOk : Bool) (curFont : Nat)
    (str : String) (x y : Int) (colour : Nat)
    (q : List DrawJob) : CallResult × List DrawJob :=
  if str = "" then (.err, q)
  else if !jobAllocOk then (.err, q)
  else if !dataAllocOk then (.fatal, q ++ [⟨none⟩])
  else if !strAllocOk then (.err, q ++ [⟨some (.text none 0 0 0 none)⟩])
  else (.ok, q ++ [⟨some (.text (some str) (toS x) (toS y) colour (some curFont))⟩])

/-- `gfxDrawPoly`.  The point array is copied after `INIT_JOB`; if that
`calloc` fails the function returns -1 with the `DRAW_POLY` job still
enqueued and its zeroed payload (NULL `points`, `n = 0`). -/
def gfxDrawPoly (jobAllocOk dataAllocOk pointsAllocOk : Bool)
    (points : List Coord) (n : Nat) (colour : Nat)
    (q : List DrawJob) : CallResult × List DrawJob :=
  if !jobAllocOk then (.err, q)
  else if !dataAllocOk then (.fatal, q ++ [⟨none⟩])
  else if !pointsAllocOk then (.err, q ++ [⟨some (.poly none 0 0)⟩])
  else (.ok, q ++ [⟨some (.poly (some (points.take n)) n colour)⟩])

/-- `gfxDrawTriangle`.  Same shape as `gfxDrawPoly` with three points. -/
def gfxDrawTriangle (jobAllocOk dataAllocOk pointsAllocOk : Bool)
    (points : List Coord) (colour : Nat)
    (q : List DrawJob) : CallResult × List DrawJob :=
  if !jobAllocOk then (.err, q)
  else if !dataAllocOk then (.fatal, q ++ [⟨none⟩])
  else if !pointsAllocOk then (.err, q ++ [⟨some (.triangle none 0)⟩])
  else (.ok, q ++ [⟨some (.triangle (some (points.take 3)) colour)⟩])

/-- `gfxGetTextSize`.  The backend text measurement
(`_getTextSize`: render the string with the current font and query the
texture) is the oracle `sz`; `none` is its -1 / NULL-surface failure. -/
def gfxGetTextSize (sz : String → Option (Nat × Nat)) (str : String) :
    Option (Nat × Nat) :=
  sz str

/-- `gfxDrawCenteredText`: measures the string, then calls
`gfxDrawText` at `x - width / 2, y - height / 2` (C `int` division of
the non-negative queried sizes); returns -1 and enqueues nothing when
the measurement fails. -/
def gfxDrawCenteredText (sz : String → Option (Nat × Nat))
    (jobAllocOk dataAllocOk strAllocOk : Bool) (curFont : Nat)
    (str : String) (x y : Int) (colour : Nat)
    (q : List DrawJob) : CallResult × List DrawJob :=
  match gfxGetTextSize sz str with
  | none => (.err, q)
  | some (width, height) =>
      gfxDrawText jobAllocOk dataAllocOk strAllocOk curFont str
        (x - (width : Int) / 2) (y - (height : Int) / 2) colour q

/-- Modelled from the spec (claim C10's right-hand side): first compute
the string's bounding-box size via `gfxGetTextSize`, then call
`gfxDrawText(str, x - w/2, y - h/2, colour)` with truncating integer
division; if the size computation fails, return -1 and enqueue no
job. -/
def specCenteredTextViaSize (sz : String → Option (Nat × Nat))
    (jobAllocOk dataAllocOk strAllocOk : Bool) (curFont : Nat)
    (str : String) (x y : Int) (colour : Nat)
    (q : List DrawJob) : CallResult × List DrawJob :=
  match gfxGetTextSize sz str with
  | some (w, h) =>
      gfxDrawText jobAllocOk dataAllocOk strAllocOk curFont str
        (x - (w : Int) / 2) (y - (h : Int) / 2) colour q
  | none => (.err, q)

/-- `loaded_image_t`: one entry of the loaded-images registry.  `id`
stands for the node's address; the SDL payload (file, ops, surface,
texture, sizes, scale) is owned by the entry and released together with
it, so it needs no separate fields for the claims below.  `ref_count`
is the C `unsigned int` counter. -/
structure LoadedImage where
  id : Nat
  ref_count : Nat
  pending_free : Bool
  deriving Repr, DecidableEq

/-- The loaded-images registry: the list behind the sentinel
`loaded_images_list`, plus the log of entries whose backend resources
were released and whose nodes were freed (`SDL_FreeSurface` /
`SDL_RWclose` / `SDL_DestroyTexture` / `free`). -/
structure ImgRegistry where
  images : List LoadedImage
  freed : List Nat
  deriving Repr, DecidableEq

/-- `freeLoadedImage`: walks the registry for the node, unlinks it
(both the has-successor and the last-node branch relink correctly),
releases its backend resources, frees it and NULLs the caller's handle;
returns -1 leaving everything untouched when the node is not in the
registry.  Result: (return value, registry, caller's handle). -/
def freeLoadedImage (img : Nat) (st : ImgRegistry) :
    Int × ImgRegistry × Option Nat :=
  if st.images.any (fun e => e.id = img) then
    (0, ⟨st.images.eraseP (fun e => e.id == img), st.freed ++ [img]⟩, none)
  else (-1, st, some img)

/-- `vPutLoadedImage`: decrements the entry's `ref_count` (unsigned)
and, when the count is now zero with `pending_free` set, destroys the
entry through `freeLoadedImage`. -/
def vPutLoadedImage (img : Nat) (st : ImgRegistry) : ImgRegistry :=
  let images := st.images.map fun e =>
    if e.id = img then { e with ref_count := u32dec e.ref_count } else e
  let st := { st with images := images }
  match st.images.find? (fun e => e.id = img) with
  | some e =>
      if e.pending_free && e.ref_count = 0 then (freeLoadedImage img st).2.1
      else st
  | none => st

/-- `gfxDrawFreeLoadedImage`: takes the address of the caller's handle.
Dereferencing a NULL handle (the handle a previous successful immediate
free already NULLed) or a handle whose node is no longer in the
registry is undefined behaviour, modelled as `.error`.  Otherwise: a
zero `ref_count` frees the entry immediately, else only `pending_free`
is set.  Result: (return value, registry, caller's handle). -/
def gfxDrawFreeLoadedImage (handle : Option Nat) (st : ImgRegistry) :
    Except Unit (Int × ImgRegistry × Option Nat) :=
  match handle with
  | none => .error ()
  | some img =>
    match st.images.find? (fun e => e.id = img) with
    | none => .error ()
    | some e =>
      if e.ref_count = 0 then .ok (freeLoadedImage img st)
      else
        .ok (0,
          { st with images := st.images.map fun f =>
              if f.id = img then { f with pending_free := true } else f },
          some img)

/-- `struct gfx_font`: one node of the font registry.  `id` stands for
the node's address (`font_handle_t`), `fontId` for the `TTF_Font *`
backend handle it owns.  `ref_count`/`pending_free` are the
`gfx_font_ref` counter and flag. -/
structure FontEntry where
  id : Nat
  fontId : Nat
  name : String
  size : Nat
  ref_count : Nat
  pending_free : Bool
  deriving Repr, DecidableEq

/-- The font registry: the list behind the sentinel `font_list`, the
current default font (`cur_default_font`, NULL before init), the log of
backend fonts closed by `TTF_CloseFont`, the log of freed nodes, and
fresh-address/fresh-handle counters standing for the allocator. -/
structure FontRegistry where
  fonts : List FontEntry
  cur : Option Nat
  closed : List Nat
  freedNodes : List Nat
  nextId : Nat
  nextFontId : Nat
  deriving Repr, DecidableEq

/-- The list walk shared by `gfxFontPutFontHandle` / `gfxFontPutFont`,
parameterized by the match predicate on the node.  At the first match
the counter is decremented (unsigned); when it reaches zero with
`pending_free` set the node is deleted (`gfxFontDeleteFont`: close the
backend font, free the node) - but the relink `delete->next =
iterator->next` is guarded by `if (iterator->next)`, so a matched node
at the TAIL of the list is deleted without being unlinked, leaving its
predecessor's pointer dangling: in the model the freed node then stays
in the list.  Returns (new list, closed backend fonts, freed nodes). -/
def putFontWalk (match_ : FontEntry → Bool) :
    List FontEntry → List FontEntry × List Nat × List Nat
  | [] => ([], [], [])
  | f :: rest =>
    if match_ f then
      let f' := { f with ref_count := u32dec f.ref_count }
      if f'.ref_count = 0 && f.pending_free then
        match rest with
        | [] => ([f'], [f.fontId], [f.id])
        | _ :: _ => (rest, [f.fontId], [f.id])
      else (f' :: rest, [], [])
    else
      let r := putFontWalk match_ rest
      (f :: r.1, r.2.1, r.2.2)

/-- `gfxFontPutFontHandle`: release by registry-node handle. -/
def gfxFontPutFontHandle (handle : Nat) (st : FontRegistry) : FontRegistry :=
  let r := putFontWalk (fun f => f.id == handle) st.fonts
  { st with fonts := r.1, closed := st.closed ++ r.2.1,
            freedNodes := st.freedNodes ++ r.2.2 }

/-- `gfxFontPutFont`: release by backend `TTF_Font *` handle. -/
def gfxFontPutFont (font : Nat) (st : FontRegistry) : FontRegistry :=
  let r := putFontWalk (fun f => f.fontId == font) st.fonts
  { st with fonts := r.1, closed := st.closed ++ r.2.1,
            freedNodes := st.freedNodes ++ r.2.2 }

/-- `gfxFontGetCurFont`: increments the current default font's counter
and returns its backend handle; a NULL or dangling `cur_default_font`
is undefined behaviour (`.error`). -/
def gfxFontGetCurFont (st : FontRegistry) : Except Unit (Nat × FontRegistry) :=
  match st.cur with
  | none => .error ()
  | some i =>
    match st.fonts.find? (fun f => f.id = i) with
    | none => .error ()
    | some e =>
        .ok (e.fontId,
          { st with fonts := st.fonts.map fun f =>
              if f.id = i then { f with ref_count := uadd f.ref_count 1 } else f })

/-- `_appendFont`/`_loadFont`: appends a freshly loaded entry
(ref-count 0, pending-free clear) at the tail of the registry;
`loadOk = false` is the allocation / `TTF_OpenFont` failure, which
leaves the registry unchanged and returns NULL. -/
def appendFont (loadOk : Bool) (font_name : String) (size : Nat)
    (st : FontRegistry) : Option (Nat × FontRegistry) :=
  if loadOk then
    some (st.nextId,
      { st with
          fonts := st.fonts ++
            [⟨st.nextId, st.nextFontId, font_name, size, 0, false⟩],
          nextId := st.nextId + 1, nextFontId := st.nextFontId + 1 })
  else none

/-- `gfxFontSetSize`: nothing to do when the current default font is
already at `font_size`; with no outstanding references the backend font
is closed and reopened in place at the new size (on reopen failure the
entry is left holding the already-closed handle and -1 is returned);
with outstanding references the current entry is marked `pending_free`
and a brand-new entry at the new size is appended and becomes the
current default (`cur_default_font` becomes NULL if that load fails).
A NULL `cur_default_font` returns -1; a dangling one is `.error`. -/
def gfxFontSetSize (loadOk : Bool) (font_size : Nat) (st : FontRegistry) :
    Except Unit (Int × FontRegistry) :=
  match st.cur with
  | none => .ok (-1, st)
  | some i =>
    match st.fonts.find? (fun f => f.id = i) with
    | none => .error ()
    | some e =>
      if e.size = font_size then .ok (0, st)
      else if e.ref_count = 0 then
        let closed := st.closed ++ [e.fontId]
        if loadOk then
          .ok (0,
            { st with
                fonts := st.fonts.map fun f =>
                  if f.id = i then
                    { f with fontId := st.nextFontId, size := font_size }
                  else f,
                closed := closed, nextFontId := st.nextFontId + 1 })
        else .ok (-1, { st with closed := closed })
      else
        let st1 :=
          { st with fonts := st.fonts.map fun f =>
              if f.id = i then { f with pending_free := true } else f }
        match appendFont loadOk e.name font_size st1 with
        | some (nid, st2) => .ok (0, { st2 with cur := some nid })
        | none => .ok (-1, { st1 with cur := none })

/-- `spritesheet_t`: bounding box, cell grid and padding over a loaded
image (`image` is the backing `loaded_image_t` node id). -/
structure Spritesheet where
  image : Nat
  x : Nat
  y : Nat
  width : Nat
  height : Nat
  sprite_width : Nat
  sprite_height : Nat
  sprite_cols : Nat
  sprite_rows : Nat
  padding_x : Nat
  padding_y : Nat
  deriving Repr, DecidableEq

/-- `gfxDrawSpritesheetSetBoundingBox`. -/
def gfxDrawSpritesheetSetBoundingBox (s : Spritesheet)
    (bounding_x bounding_y bounding_w bounding_h : Nat) : Spritesheet :=
  { s with x := bounding_x, y := bounding_y,
           width := bounding_w, height := bounding_h }

/-- `gfxDrawSpritesheetSetPadding`. -/
def gfxDrawSpritesheetSetPadding (s : Spritesheet)
    (padding_x padding_y : Nat) : Spritesheet :=
  { s with padding_x := padding_x, padding_y := padding_y }

/-- `gfxDrawSpritesheetSetDivisions`: derives the per-cell size once
from the bounding box and padding, in C unsigned arithmetic:
`sprite_width = (width - padding_x * (cols - 1) * 2) / cols` (and the
row analogue). -/
def gfxDrawSpritesheetSetDivisions (s : Spritesheet) (cols rows : Nat) :
    Spritesheet :=
  let total_x_padding_pixels := (s.padding_x * (cols - 1) * 2) % U32
  let total_y_padding_pixels := (s.padding_y * (rows - 1) * 2) % U32
  { s with sprite_cols := cols, sprite_rows := rows,
           sprite_width := usub s.width total_x_padding_pixels / cols,
           sprite_height := usub s.height total_y_padding_pixels / rows }

/-- The crop-origin x computed by `gfxDrawSprite` for a (non-negative)
column: `column * (sprite_width + padding_x * 2) + padding_x`, in C
unsigned arithmetic.  (Note `gfxDrawSprite` does not add the bounding
box origin `s.x`.) -/
def spriteCropX (s : Spritesheet) (column : Nat) : Nat :=
  (column * (s.sprite_width + s.padding_x * 2) + s.padding_x) % U32

/-- The crop-origin y computed by `gfxDrawSprite` for a row. -/
def spriteCropY (s : Spritesheet) (row : Nat) : Nat :=
  (row * (s.sprite_height + s.padding_y * 2) + s.padding_y) % U32

/-- Increment of a loaded image's `ref_count` (the `ref_count++` the
enqueue paths perform on the backing image). -/
def imgAcquire (img : Nat) (st : ImgRegistry) : ImgRegistry :=
  { st with images := st.images.map fun e =>
      if e.id = img then { e with ref_count := uadd e.ref_count 1 } else e }

/-- `gfxDrawSprite`: validates the handle and that the column/row are
not negative and not GREATER than `sprite_cols`/`sprite_rows` (the
source comparison is `>`, so `column = sprite_cols` passes), then
enqueues a `DRAW_LOADED_IMAGE_CROP` job after taking a strong reference
on the backing image.  Result: (return value, queue, image
registry). -/
def gfxDrawSprite (jobAllocOk dataAllocOk : Bool)
    (spritesheet : Option Spritesheet) (column row : Int) (x y : Int)
    (q : List DrawJob) (reg : ImgRegistry) :
    CallResult × List DrawJob × ImgRegistry :=
  match spritesheet with
  | none => (.err, q, reg)
  | some s =>
    if column < 0 || column > (s.sprite_cols : Int) then (.err, q, reg)
    else if row < 0 || row > (s.sprite_rows : Int) then (.err, q, reg)
    else if !jobAllocOk then (.err, q, reg)
    else if !dataAllocOk then (.fatal, q ++ [⟨none⟩], reg)
    else
      (.ok,
       q ++ [⟨some (.loadedImageCrop s.image (toS x) (toS y)
               (spriteCropX s column.toNat) (spriteCropY s row.toNat)
               (s.sprite_width : Int) (s.sprite_height : Int))⟩],
       imgAcquire s.image reg)

/-- `enum sprite_sequence_direction`. -/
inductive SpriteSequenceDirection where
  | horizontalPos
  | horizontalNeg
  | verticalPos
  | verticalNeg
  deriving Repr, DecidableEq

/-- `spritesheet_sequence_t`. -/
structure SpritesheetSequence where
  name : String
  start_row : Nat
  start_col : Nat
  direction : SpriteSequenceDirection
  frames : Nat
  deriving Repr, DecidableEq

/-- `animated_sequence_instance_t`, with the `animated_image_t`
indirection flattened: the instance's animation's spritesheet and its
resolved sequence.  `current_frame` is the C `signed int`. -/
structure AnimSequenceInstance where
  frame_period_ms : Nat
  current_frame : Int
  prev_frame_timestamp : Nat
  cur_frame_timestamp : Nat
  spritesheet : Spritesheet
  sequence : SpritesheetSequence
  deriving Repr, DecidableEq

/-- The timing state machine at the top of `gfxDrawAnimationDrawFrame`:
accumulate the timestep into `cur_frame_timestamp` (unsigned) and, only
when it is STRICTLY greater than `prev_frame_timestamp +
frame_period_ms`, advance `current_frame` by the integer number of
elapsed periods - forward modulo `frames` for the positive directions,
backward with a wrap to `frames - 1` applied only when the result is
exactly -1 for the negative directions - and move
`prev_frame_timestamp` forward by the consumed whole periods.  (The
C `int -= unsigned` compound assignment equals the mathematical
subtraction whenever the result fits in `int`, which the claims'
inputs do.) -/
def animAdvance (anim : AnimSequenceInstance) (ms_timestep : Nat) :
    AnimSequenceInstance :=
  let cur := uadd anim.cur_frame_timestamp ms_timestep
  let anim := { anim with cur_frame_timestamp := cur }
  if cur > uadd anim.prev_frame_timestamp anim.frame_period_ms then
    let steps := usub cur anim.prev_frame_timestamp / anim.frame_period_ms
    let anim :=
      match anim.sequence.direction with
      | .horizontalPos | .verticalPos =>
          { anim with current_frame :=
              ((intToU32 (anim.current_frame + (steps : Int)) % anim.sequence.frames : Nat) : Int) }
      | .horizontalNeg | .verticalNeg =>
          let cf := anim.current_frame - (steps : Int)
          { anim with current_frame :=
              if cf = -1 then ((anim.sequence.frames : Int) - 1) else cf }
    { anim with
      prev_frame_timestamp :=
        uadd anim.prev_frame_timestamp ((steps * anim.frame_period_ms) % U32) }
  else anim

/-- `gfxDrawAnimationDrawFrame`: advances the instance's timing state,
then enqueues a `DRAW_LOADED_IMAGE_CROP` job for the resulting frame
(taking a strong reference on the spritesheet's backing image), with
the crop origin resolved along the sequence's scan axis from the
updated `current_frame` (read through the C int-to-unsigned
conversion) and pinned at the start row/column on the other axis.
Result: (return value, instance, queue, image registry). -/
def gfxDrawAnimationDrawFrame (jobAllocOk dataAllocOk : Bool)
    (anim : AnimSequenceInstance) (ms_timestep : Nat) (x y : Int)
    (q : List DrawJob) (reg : ImgRegistry) :
    CallResult × AnimSequenceInstance × List DrawJob × ImgRegistry :=
  let anim := animAdvance anim ms_timestep
  if !jobAllocOk then (.err, anim, q, reg)
  else if !dataAllocOk then (.fatal, anim, q ++ [⟨none⟩], reg)
  else
    let s := anim.spritesheet
    let cropOrigin : Nat × Nat :=
      match anim.sequence.direction with
      | .horizontalPos | .horizontalNeg =>
        let cur_frame_index_offset :=
          intToU32 (anim.current_frame + (anim.sequence.start_col : Int)) %
            anim.sequence.frames
        ((s.x + cur_frame_index_offset * (s.sprite_width + s.padding_x * 2)) % U32,
         (s.y + anim.sequence.start_row * (s.sprite_height + s.padding_y * 2)) % U32)
      | .verticalPos | .verticalNeg =>
        let cur_frame_index_offset :=
          intToU32 (anim.current_frame + (anim.sequence.start_row : Int)) %
            anim.sequence.frames
        ((s.x + anim.sequence.start_col * (s.sprite_width + s.padding_x * 2)) % U32,
         (s.y + cur_frame_index_offset * (s.sprite_height + s.padding_y * 2)) % U32)
    (.ok, anim,
     q ++ [⟨some (.loadedImageCrop s.image (toS x) (toS y)
             (cropOrigin.1 : Int) (cropOrigin.2 : Int)
             (s.sprite_width : Int) (s.sprite_height : Int))⟩],
     imgAcquire s.image reg)

/-- The `global_offsets` pair guarded by its own lock. -/
structure GlobalOffsets where
  x : Int
  y : Int
  deriving Repr, DecidableEq

/-- `gfxDrawSetGlobalXOffset` (the lock always succeeds in the
sequential model, so the return value is 0). -/
def gfxDrawSetGlobalXOffset (offset : Int) (g : GlobalOffsets) :
    Int × GlobalOffsets :=
  (0, { g with x := offset })

/-- `gfxDrawSetGlobalYOffset`. -/
def gfxDrawSetGlobalYOffset (offset : Int) (g : GlobalOffsets) :
    Int × GlobalOffsets :=
  (0, { g with y := offset })

/-! Helper lemmas. -/

/-- `toS` is the identity on values already in the signed-short range. -/
lemma toS_eq_self (z : Int) (h1 : -32768 ≤ z) (h2 : z < 32768) : toS z = z := by
  unfold toS
  rw [Int.emod_eq_of_lt (by omega) (by omega)]
  omega

/-- `usub` is plain subtraction below the modulus. -/
lemma usub_eq_sub (a b : Nat) (hba : b ≤ a) (ha : a < U32) : usub a b = a - b := by
  unfold usub
  rw [Nat.mod_eq_of_lt ha, Nat.mod_eq_of_lt (lt_of_le_of_lt hba ha)]
  have h : a + U32 - b = U32 + (a - b) := by omega
  rw [h, Nat.add_mod_left, Nat.mod_eq_of_lt (by omega)]

/-- `List.find?` skips a prefix on which the predicate is false. -/
lemma find?_append_of_false {α : Type} (p : α → Bool) (pre rest : List α)
    (h : ∀ f ∈ pre, p f = false) : (pre ++ rest).find? p = rest.find? p := by
  induction pre with
  | nil => rfl
  | cons a t ih =>
      rw [List.cons_append, List.find?_cons, h a (List.mem_cons_self a t)]
      exact ih (fun b hb => h b (List.mem_cons_of_mem a hb))

/-- Mapping a function that fixes every element of a list is the identity. -/
lemma map_eq_self_of_fixed {α : Type} (g : α → α) (l : List α)
    (h : ∀ a ∈ l, g a = a) : l.map g = l := by
  induction l with
  | nil => rfl
  | cons a t ih =>
      rw [List.map_cons, h a (List.mem_cons_self a t),
        ih (fun b hb => h b (List.mem_cons_of_mem a hb))]

/-- Setting `pending_free` on the entries of a given id is idempotent. -/
lemma map_setPending_idem (i : Nat) (l : List LoadedImage) :
    (l.map (fun f => if f.id = i then { f with pending_free := true } else f)).map
        (fun f => if f.id = i then { f with pending_free := true } else f) =
      l.map (fun f => if f.id = i then { f with pending_free := true } else f) := by
  induction l with
  | nil => rfl
  | cons a t ih =>
      by_cases h : a.id = i <;> simp [h, ih]

/-- `putFontWalk` passes over a prefix of non-matching nodes untouched. -/
lemma putFontWalk_append_of_false (m : FontEntry → Bool)
    (pre rest : List FontEntry) (h : ∀ f ∈ pre, m f = false) :
    putFontWalk m (pre ++ rest) =
      (pre ++ (putFontWalk m rest).1,
       (putFontWalk m rest).2.1, (putFontWalk m rest).2.2) := by
  induction pre with
  | nil => simp
  | cons a t ih =>
      rw [List.cons_append]
      rw [putFontWalk, h a (List.mem_cons_self a t)]
      simp only [Bool.false_eq_true, if_false]
      rw [ih (fun b hb => h b (List.mem_cons_of_mem a hb))]
      simp

/-! Claim theorems. -/

/-- Claim C2 (code evaluated at the failing input): when the string-copy
allocation inside `gfxDrawText` fails (job node and data union
allocations succeeding), the function returns -1 but a `DRAW_TEXT` job
with a NULL string payload remains enqueued - partial state IS left
behind, contradicting the claim that the queue is unchanged. -/
theorem c2_text_alloc_failure_leaves_partial_job :
    gfxDrawText true true false 7 "hi" 5 6 9 [] =
      (.err, [⟨some (.text none 0 0 0 none)⟩]) := by
  decide

/-- Claim C3 (code evaluated at the failing input): dispatching an
ellipse job at (10, 20) under global offset (3, 5) issues the backend
ellipse call at (13, 20) - the y offset is NOT added to the ellipse's y
coordinate - while e.g. a circle job at the same position is offset on
both axes to (13, 25). -/
theorem c3_ellipse_y_offset_not_applied :
    vHandleDrawJob 3 5 ⟨some (.ellipse 10 20 4 4 99)⟩ =
        .ok [.ellipse 13 20 4 4 99] ∧
      vHandleDrawJob 3 5 ⟨some (.circle 10 20 4 99)⟩ =
        .ok [.circle 13 25 4 99] := by
  exact ⟨rfl, rfl⟩

/-- Claim C4 counterexample: a sequence instance with frames = 4,
direction horizontal-negative, frame_period_ms = 100, current_frame = 0
and both timestamp accumulators zero, advanced by elapsed_ms = 100,
does NOT end at current_frame = 3: the advance guard is the strict
comparison `cur_ts > prev_ts + frame_period_ms`, 100 is not greater
than 0 + 100, and the frame stays 0. -/
theorem c4_counterexample_100ms_no_advance :
    (gfxDrawAnimationDrawFrame true true
        ⟨100, 0, 0, 0, ⟨1, 0, 0, 64, 64, 16, 16, 4, 4, 0, 0⟩,
         ⟨"walk", 0, 0, .horizontalNeg, 4⟩⟩
        100 0 0 [] ⟨[⟨1, 0, false⟩], []⟩).2.1.current_frame = 0 ∧
      ¬ (gfxDrawAnimationDrawFrame true true
          ⟨100, 0, 0, 0, ⟨1, 0, 0, 64, 64, 16, 16, 4, 4, 0, 0⟩,
           ⟨"walk", 0, 0, .horizontalNeg, 4⟩⟩
          100 0 0 [] ⟨[⟨1, 0, false⟩], []⟩).2.1.current_frame = 3 := by
  constructor
  · decide
  · decide

/-- Claim C4 as amended: for that same instance a frame-advance call
with elapsed_ms = 100 leaves current_frame = 0 (the advance condition
is strictly greater-than, so a whole period must be strictly exceeded),
and a call with elapsed_ms = 101 advances one step backwards and wraps
to current_frame = frames - 1 = 3. -/
theorem c4_amended_strict_threshold_wrap :
    (gfxDrawAnimationDrawFrame true true
        ⟨100, 0, 0, 0, ⟨1, 0, 0, 64, 64, 16, 16, 4, 4, 0, 0⟩,
         ⟨"walk", 0, 0, .horizontalNeg, 4⟩⟩
        100 0 0 [] ⟨[⟨1, 0, false⟩], []⟩).2.1.current_frame = 0 ∧
      (gfxDrawAnimationDrawFrame true true
        ⟨100, 0, 0, 0, ⟨1, 0, 0, 64, 64, 16, 16, 4, 4, 0, 0⟩,
         ⟨"walk", 0, 0, .horizontalNeg, 4⟩⟩
        101 0 0 [] ⟨[⟨1, 0, false⟩], []⟩).2.1.current_frame = 3 := by
  constructor
  · decide
  · decide

/-- Claim C5 (code evaluated at the failing input): releasing the last
reference of a pending-free font entry that sits at the TAIL of the
registry (here: the registry's only entry, ref_count 1, pending_free
set) does close its backend font and free the node (`freedNodes = [1]`,
`closed = [10]`), but the node is NOT unlinked: it is still reachable
in the registry list, a dangling pointer. -/
theorem c5_font_put_tail_freed_but_still_linked :
    (gfxFontPutFontHandle 1
        ⟨[⟨1, 10, "font.ttf", 15, 1, true⟩], some 1, [], [], 2, 11⟩).freedNodes
        = [1] ∧
      (gfxFontPutFontHandle 1
        ⟨[⟨1, 10, "font.ttf", 15, 1, true⟩], some 1, [], [], 2, 11⟩).closed
        = [10] ∧
      (gfxFontPutFontHandle 1
        ⟨[⟨1, 10, "font.ttf", 15, 1, true⟩], some 1, [], [], 2, 11⟩).fonts.any
          (fun f => f.id = 1) = true := by
  refine ⟨by decide, by decide, by decide⟩

/-- Claim C6 counterexample: on a handle whose entry has reference
count zero, the first `gfxDrawFreeLoadedImage` frees immediately and
NULLs the caller's handle; calling it a second time with that (now
NULL) handle dereferences NULL - undefined behaviour, not the no-op the
claim requires for the immediate-free case. -/
theorem c6_counterexample_double_free_crashes :
    gfxDrawFreeLoadedImage (some 1) ⟨[⟨1, 0, false⟩], []⟩ =
        .ok (0, ⟨[], [1]⟩, none) ∧
      gfxDrawFreeLoadedImage none ⟨[], [1]⟩ = .error () := by
  exact ⟨rfl, rfl⟩

/-- Claim C8 counterexample: for the spritesheet with bounding box
(W, H) = (20, 20), padding (5, 5) and divisions cols = rows = 2 the
computed cell size is 5, and neither claimed bound holds: the claimed
inequality gives 2 * 5 + 2 * 5 * 2 = 30 > 20, and the cell origin for
(col, row) = (1, 1) is (20, 20), on the far edge, not inside the
20-by-20 bounding box. -/
theorem c8_counterexample_padding_budget :
    ¬ (2 * (gfxDrawSpritesheetSetDivisions
          (gfxDrawSpritesheetSetPadding
            (gfxDrawSpritesheetSetBoundingBox
              ⟨1, 0, 0, 0, 0, 0, 0, 0, 0, 0, 0⟩ 0 0 20 20) 5 5)
          2 2).sprite_width + 2 * 5 * 2 ≤ 20 ∧
       spriteCropX (gfxDrawSpritesheetSetDivisions
          (gfxDrawSpritesheetSetPadding
            (gfxDrawSpritesheetSetBoundingBox
              ⟨1, 0, 0, 0, 0, 0, 0, 0, 0, 0, 0⟩ 0 0 20 20) 5 5)
          2 2) 1 < 20 ∧
       spriteCropY (gfxDrawSpritesheetSetDivisions
          (gfxDrawSpritesheetSetPadding
            (gfxDrawSpritesheetSetBoundingBox
              ⟨1, 0, 0, 0, 0, 0, 0, 0, 0, 0, 0⟩ 0 0 20 20) 5 5)
          2 2) 1 < 20) := by
  decide

/-- Claim C9 (code evaluated at the failing input): `gfxDrawSprite`
with column = 3 on a spritesheet with sprite_cols = 3 (valid columns
0..2) is NOT rejected: the bounds check uses `>` instead of `>=`, so
the call returns success, increments the backing image's reference
count and enqueues a crop job whose crop origin x = 24 equals the sheet
width, i.e. a crop entirely outside the sheet. -/
theorem c9_column_equal_cols_accepted :
    gfxDrawSprite true true (some ⟨1, 0, 0, 24, 16, 8, 8, 3, 2, 0, 0⟩)
        3 0 5 6 [] ⟨[⟨1, 0, false⟩], []⟩ =
      (.ok, [⟨some (.loadedImageCrop 1 5 6 24 0 8 8)⟩],
       ⟨[⟨1, 1, false⟩], []⟩) := by
  decide

/-- Claim C10: `gfxDrawCenteredText(str, x, y, colour)` is equivalent
to first computing the string's bounding-box size (w, h) via
`gfxGetTextSize` and then calling `gfxDrawText(str, x - w/2, y - h/2,
colour)` with truncating integer division, for every size-measurement
outcome, allocation outcome, current font and queue; when the size
computation fails both return -1 and enqueue no job (encoded in the
spec-side function's failure branch). -/
theorem c10_centered_text_refines_size_then_draw
    (sz : String → Option (Nat × Nat)) (jobAllocOk dataAllocOk strAllocOk : Bool)
    (curFont : Nat) (str : String) (x y : Int) (colour : Nat)
    (q : List DrawJob) :
    gfxDrawCenteredText sz jobAllocOk dataAllocOk strAllocOk curFont
        str x y colour q =
      specCenteredTextViaSize sz jobAllocOk dataAllocOk strAllocOk curFont
        str x y colour q := by
  unfold gfxDrawCenteredText specCenteredTextViaSize gfxGetTextSize
  cases sz str with
  | none => rfl
  | some p => cases p; rfl

/-- Claim C1: jobs are dispatched in exactly the order they were
enqueued.  First conjunct (general FIFO order): a drain over any queue
of dispatchable jobs succeeds, leaves the queue empty and issues
exactly the concatenation, in queue order, of each job's backend calls.
Second conjunct (end-to-end scenario): enqueueing clear(White) then
filled_rect(10, 10, 20, 20, Red) and draining once yields exactly those
two backend calls in that order with those exact parameters, the global
offset added identically to both rect coordinates. -/
theorem c1_queue_fifo_dispatch_order (x_offset y_offset : Int)
    (js : List DrawJob)
    (hok : ∀ j ∈ js, ∃ cs, vHandleDrawJob x_offset y_offset j = .ok cs)
    (hx : x_offset.natAbs ≤ 10000) (hy : y_offset.natAbs ≤ 10000) :
    gfxDrawUpdateScreen x_offset y_offset js =
        (0, (js.map (jobCalls x_offset y_offset)).flatten, []) ∧
      gfxDrawUpdateScreen x_offset y_offset
          (gfxDrawFilledBox true true 10 10 20 20 0xFF0000
            (gfxDrawClear true true 0xFFFFFF []).2).2 =
        (0, [.clear 0xFFFFFF,
             .filledRect (10 + x_offset) (10 + y_offset) 20 20 0xFF0000],
         []) := by
  constructor
  · induction js with
    | nil => simp [gfxDrawUpdateScreen]
    | cons j rest ih =>
        obtain ⟨cs, hcs⟩ := hok j (List.mem_cons_self j rest)
        have ih2 := ih (fun a ha => hok a (List.mem_cons_of_mem j ha))
        simp [gfxDrawUpdateScreen, hcs, jobCalls, ih2]
  · have h1 : toS (10 + x_offset) = 10 + x_offset := toS_eq_self _ (by omega) (by omega)
    have h2 : toS (10 + y_offset) = 10 + y_offset := toS_eq_self _ (by omega) (by omega)
    have t10 : toS 10 = 10 := by decide
    have t20 : toS 20 = 20 := by decide
    simp [gfxDrawClear, gfxDrawFilledBox, gfxDrawUpdateScreen,
      vHandleDrawJob, t10, t20, h1, h2]

/-- Witness for C1 at offsets (3, 7) and the empty generic queue. -/
theorem c1_queue_fifo_dispatch_order_witness :
    gfxDrawUpdateScreen 3 7 [] = (0, [], []) ∧
      gfxDrawUpdateScreen 3 7
          (gfxDrawFilledBox true true 10 10 20 20 0xFF0000
            (gfxDrawClear true true 0xFFFFFF []).2).2 =
        (0, [.clear 0xFFFFFF, .filledRect 13 17 20 20 0xFF0000], []) :=
  c1_queue_fifo_dispatch_order 3 7 []
    (by intro j hj; cases hj) (by decide) (by decide)

/-- Claim C6 as amended: `gfxDrawFreeLoadedImage` is idempotent in the
positive-reference-count case: when the entry's ref_count is non-zero
at the first call, both calls merely set pending_free and return 0,
leaving an identical registry and the caller's handle intact.  (In the
zero-count case the first call frees the entry and NULLs the caller's
handle, so a second call dereferences NULL - see the counterexample.) -/
theorem c6_amended_idempotent_when_referenced
    (pre post : List LoadedImage) (e : LoadedImage) (freed0 : List Nat)
    (href : e.ref_count ≠ 0) (hpre : ∀ f ∈ pre, f.id ≠ e.id) :
    ∃ st1,
      gfxDrawFreeLoadedImage (some e.id) ⟨pre ++ e :: post, freed0⟩ =
          .ok (0, st1, some e.id) ∧
        gfxDrawFreeLoadedImage (some e.id) st1 = .ok (0, st1, some e.id) := by
  have hfind : ∀ rest : List LoadedImage,
      (pre ++ rest).find? (fun f => f.id = e.id) =
        rest.find? (fun f => f.id = e.id) :=
    fun rest => find?_append_of_false _ pre rest
      (fun f hf => by simp [hpre f hf])
  have hpremap : pre.map
      (fun f => if f.id = e.id then { f with pending_free := true } else f) = pre :=
    map_eq_self_of_fixed _ pre (fun f hf => by simp [hpre f hf])
  refine ⟨⟨pre ++ { e with pending_free := true } :: post.map
      (fun f => if f.id = e.id then { f with pending_free := true } else f),
    freed0⟩, ?_, ?_⟩
  · unfold gfxDrawFreeLoadedImage
    simp only [hfind, List.find?_cons, decide_eq_true_eq, if_pos rfl, href,
      if_false, List.map_append, List.map_cons, hpremap]
    simp
    exact fun h => absurd h href
  · unfold gfxDrawFreeLoadedImage
    simp only [hfind, List.find?_cons, decide_eq_true_eq, if_pos rfl, href,
      if_false, List.map_append, List.map_cons, hpremap, map_setPending_idem]
    simp
    exact fun h => absurd h href

/-- Witness for the amended C6 on a one-entry registry with
ref_count 2. -/
theorem c6_amended_idempotent_when_referenced_witness :
    ∃ st1,
      gfxDrawFreeLoadedImage (some 1) ⟨[⟨1, 2, false⟩], []⟩ =
          .ok (0, st1, some 1) ∧
        gfxDrawFreeLoadedImage (some 1) st1 = .ok (0, st1, some 1) :=
  c6_amended_idempotent_when_referenced [] [] ⟨1, 2, false⟩ []
    (by decide) (by simp)

/-- Claim C7: when the current default font entry has an outstanding
reference (here exactly one, as held by one in-flight queued text job),
`gfxFontSetSize` to a different size does not close the referenced
backend font: it marks the current entry pending-free, appends a
brand-new entry at the new size which becomes the new current default,
and closes nothing (`closed` unchanged); the old entry's backend font
is closed exactly when the outstanding reference is later released by
`gfxFontPutFont`, which then also unlinks the old entry. -/
theorem c7_set_size_defers_close_until_release
    (pre post : List FontEntry) (e : FontEntry) (ns : Nat)
    (closed0 freed0 : List Nat) (nid nfid : Nat)
    (h1 : e.ref_count = 1) (h2 : e.size ≠ ns)
    (hpre : ∀ f ∈ pre, f.id ≠ e.id ∧ f.fontId ≠ e.fontId)
    (hpost : ∀ f ∈ post, f.id ≠ e.id)
    (hnid : nid ≠ e.id) :
    ∃ st1,
      gfxFontSetSize true ns
          ⟨pre ++ e :: post, some e.id, closed0, freed0, nid, nfid⟩ =
        .ok (0, st1) ∧
      st1.cur = some nid ∧ some nid ≠ some e.id ∧
      st1.closed = closed0 ∧
      st1.fonts =
        pre ++ { e with pending_free := true } ::
          (post ++ [⟨nid, nfid, e.name, ns, 0, false⟩]) ∧
      (gfxFontPutFont e.fontId st1).closed = closed0 ++ [e.fontId] ∧
      (gfxFontPutFont e.fontId st1).fonts =
        pre ++ (post ++ [⟨nid, nfid, e.name, ns, 0, false⟩]) := by
  have hfind : (pre ++ e :: post).find? (fun f => decide (f.id = e.id)) = some e := by
    rw [find?_append_of_false _ pre _ (fun f hf => by simp [(hpre f hf).1])]
    simp [List.find?_cons]
  have hmapPre : pre.map
      (fun f => if f.id = e.id then { f with pending_free := true } else f) = pre :=
    map_eq_self_of_fixed _ _ (fun f hf => by simp [(hpre f hf).1])
  have hmapPost : post.map
      (fun f => if f.id = e.id then { f with pending_free := true } else f) = post :=
    map_eq_self_of_fixed _ _ (fun f hf => by simp [hpost f hf])
  obtain ⟨a, t, hat⟩ :
      ∃ a t, post ++ [(⟨nid, nfid, e.name, ns, 0, false⟩ : FontEntry)] = a :: t := by
    cases post with
    | nil => exact ⟨_, _, rfl⟩
    | cons p ps => exact ⟨p, ps ++ [⟨nid, nfid, e.name, ns, 0, false⟩], by simp⟩
  have hdec1 : u32dec 1 = 0 := by decide
  refine ⟨⟨pre ++ { e with pending_free := true } ::
      (post ++ [⟨nid, nfid, e.name, ns, 0, false⟩]),
      some nid, closed0, freed0, nid + 1, nfid + 1⟩,
    ?_, rfl, by simp [hnid], rfl, rfl, ?_, ?_⟩
  · unfold gfxFontSetSize
    simp only [hfind, h2, if_false, h1]
    simp [appendFont, hmapPre, hmapPost, h1]
  · unfold gfxFontPutFont
    rw [show (⟨pre ++ { e with pending_free := true } ::
        (post ++ [⟨nid, nfid, e.name, ns, 0, false⟩]),
        some nid, closed0, freed0, nid + 1, nfid + 1⟩ : FontRegistry).fonts =
      pre ++ { e with pending_free := true} :: (post ++ [⟨nid, nfid, e.name, ns, 0, false⟩]) from rfl]
    rw [putFontWalk_append_of_false _ pre _ (fun f hf => by simp [(hpre f hf).2]), hat]
    simp [putFontWalk, h1, hdec1]
  · unfold gfxFontPutFont
    rw [show (⟨pre ++ { e with pending_free := true } ::
        (post ++ [⟨nid, nfid, e.name, ns, 0, false⟩]),
        some nid, closed0, freed0, nid + 1, nfid + 1⟩ : FontRegistry).fonts =
      pre ++ { e with pending_free := true} :: (post ++ [⟨nid, nfid, e.name, ns, 0, false⟩]) from rfl]
    rw [putFontWalk_append_of_false _ pre _ (fun f hf => by simp [(hpre f hf).2]), hat]
    simp [putFontWalk, h1, hdec1, ← hat]

/-- Witness for C7: a registry whose only entry (the current default,
size 15, ref_count 1) is resized to 20. -/
theorem c7_set_size_defers_close_until_release_witness :
    ∃ st1,
      gfxFontSetSize true 20
          ⟨[⟨1, 10, "font.ttf", 15, 1, false⟩], some 1, [], [], 2, 11⟩ =
        .ok (0, st1) ∧
      st1.cur = some 2 ∧ some 2 ≠ some 1 ∧
      st1.closed = ([] : List Nat) ∧
      st1.fonts = [⟨1, 10, "font.ttf", 15, 1, true⟩,
                   ⟨2, 11, "font.ttf", 20, 0, false⟩] ∧
      (gfxFontPutFont 10 st1).closed = [10] ∧
      (gfxFontPutFont 10 st1).fonts = [⟨2, 11, "font.ttf", 20, 0, false⟩] :=
  c7_set_size_defers_close_until_release [] [] ⟨1, 10, "font.ttf", 15, 1, false⟩
    20 [] [] 2 11 rfl (by decide) (by simp) (by simp) (by decide)

/-- Claim C8 as amended: for a spritesheet configured with padding
(px, py), bounding box (W, H) and divisions C by R (C, R at least 1,
padding budget within the box), the cell size computed at
division-setting time satisfies the budget the code actually uses,
`C * cell_w + 2 * px * (C - 1) <= W` (the divisions formula allots two
paddings per INTERIOR gap, C - 1 of them, not C), and the crop origin
computed for cell (C - 1, R - 1) lies inside the bounding box whenever
the padding is smaller than the cell size (with px >= cell_w it can
land on or past the far edge, as the counterexample shows). -/
theorem c8_amended_cell_geometry_bounds
    (img xb yb W H px py C R : Nat)
    (hC : 1 ≤ C) (hR : 1 ≤ R) (hW : W < U32) (hH : H < U32)
    (hpx : px * (C - 1) * 2 ≤ W) (hpy : py * (R - 1) * 2 ≤ H) :
    let s := gfxDrawSpritesheetSetDivisions
      (gfxDrawSpritesheetSetPadding
        (gfxDrawSpritesheetSetBoundingBox
          ⟨img, 0, 0, 0, 0, 0, 0, 0, 0, 0, 0⟩ xb yb W H) px py) C R
    C * s.sprite_width + 2 * px * (C - 1) ≤ W ∧
      R * s.sprite_height + 2 * py * (R - 1) ≤ H ∧
      (px < s.sprite_width → spriteCropX s (C - 1) < W) ∧
      (py < s.sprite_height → spriteCropY s (R - 1) < H) := by
  intro s
  have hsw : s.sprite_width = (W - px * (C - 1) * 2) / C := by
    show usub W ((px * (C - 1) * 2) % U32) / C = _
    rw [Nat.mod_eq_of_lt (lt_of_le_of_lt hpx hW), usub_eq_sub _ _ hpx hW]
  have hsh : s.sprite_height = (H - py * (R - 1) * 2) / R := by
    show usub H ((py * (R - 1) * 2) % U32) / R = _
    rw [Nat.mod_eq_of_lt (lt_of_le_of_lt hpy hH), usub_eq_sub _ _ hpy hH]
  have hpadx : s.padding_x = px := rfl
  have hpady : s.padding_y = py := rfl
  have hA : C * s.sprite_width ≤ W - px * (C - 1) * 2 := by
    rw [hsw, mul_comm]
    exact Nat.div_mul_le_self _ _
  have hB : R * s.sprite_height ≤ H - py * (R - 1) * 2 := by
    rw [hsh, mul_comm]
    exact Nat.div_mul_le_self _ _
  have hb1 : 2 * px * (C - 1) = px * (C - 1) * 2 := by ring
  have hb2 : 2 * py * (R - 1) = py * (R - 1) * 2 := by ring
  refine ⟨by rw [hb1]; omega, by rw [hb2]; omega, ?_, ?_⟩
  · intro hx
    have h2 : (C - 1) * (s.sprite_width + px * 2) + px + s.sprite_width
        = C * s.sprite_width + px * (C - 1) * 2 + px := by
      have hC1 : C = C - 1 + 1 := by omega
      calc (C - 1) * (s.sprite_width + px * 2) + px + s.sprite_width
          = (C - 1 + 1) * s.sprite_width + px * (C - 1) * 2 + px := by ring
        _ = C * s.sprite_width + px * (C - 1) * 2 + px := by rw [← hC1]
    have hraw : (C - 1) * (s.sprite_width + px * 2) + px < W := by omega
    unfold spriteCropX
    rw [hpadx]
    rw [Nat.mod_eq_of_lt (lt_trans hraw hW)]
    exact hraw
  · intro hy
    have h2 : (R - 1) * (s.sprite_height + py * 2) + py + s.sprite_height
        = R * s.sprite_height + py * (R - 1) * 2 + py := by
      have hR1 : R = R - 1 + 1 := by omega
      calc (R - 1) * (s.sprite_height + py * 2) + py + s.sprite_height
          = (R - 1 + 1) * s.sprite_height + py * (R - 1) * 2 + py := by ring
        _ = R * s.sprite_height + py * (R - 1) * 2 + py := by rw [← hR1]
    have hraw : (R - 1) * (s.sprite_height + py * 2) + py < H := by omega
    unfold spriteCropY
    rw [hpady]
    rw [Nat.mod_eq_of_lt (lt_trans hraw hH)]
    exact hraw

/-- Witness for the amended C8: a 64-by-64 sheet, padding 1, divided
4 by 4 (cell size 14). -/
theorem c8_amended_cell_geometry_bounds_witness :
    let s := gfxDrawSpritesheetSetDivisions
      (gfxDrawSpritesheetSetPadding
        (gfxDrawSpritesheetSetBoundingBox
          ⟨1, 0, 0, 0, 0, 0, 0, 0, 0, 0, 0⟩ 0 0 64 64) 1 1) 4 4
    4 * s.sprite_width + 2 * 1 * (4 - 1) ≤ 64 ∧
      4 * s.sprite_height + 2 * 1 * (4 - 1) ≤ 64 ∧
      (1 < s.sprite_width → spriteCropX s (4 - 1) < 64) ∧
      (1 < s.sprite_height → spriteCropY s (4 - 1) < 64) :=
  c8_amended_cell_geometry_bounds 1 0 0 64 64 1 1 4 4 (by decide) (by decide)
    (by decide) (by decide) (by decide) (by decide)
